import Mathlib

/-!
# Verified model of the HelixAI sample-ledger subsystem

Shallow embedding of the HelixAI medical-sample-tracking ledger code:

* `contracts/SampleTracker.sol` — the on-chain ledger contract
  (`recordStep`, `getSample`, `verifyStep`, `getCurrentStep`);
* `src/context/BlockchainContext.tsx` — the client-side hash chain
  (`generateHash` via CryptoJS.SHA256), the transaction submitter
  (`sendBlockchainTx`) and the four step-recording operations
  (`recordCollection`, `recordTransport`, `recordSequencing`,
  `recordAnalysis`);
* the Express server's `PUT /api/samples/:sampleId/step` handler
  (the off-chain replica's step-update write).

Machine integers are modelled as `Nat` with explicit `% 2^32`
reduction where 32-bit overflow matters (SHA-256); Solidity `bytes32`
values are `Nat` below `2^256`.  Fallible operations return `Except`.
-/

set_option maxRecDepth 100000
set_option maxHeartbeats 2000000

/-! ## SHA-256 (the digest used by `generateHash` via CryptoJS.SHA256)

A direct executable implementation of FIPS 180-4 SHA-256 on byte lists,
with 32-bit words as `Nat` reduced modulo `2^32`.
-/

/-- `2^32`, the modulus for 32-bit word arithmetic. -/
def w32 : Nat := 4294967296

/-- Right rotation of a 32-bit word (input assumed `< 2^32`). -/
def rotr (n x : Nat) : Nat :=
  ((x >>> n) ||| (x <<< (32 - n))) % w32

/-- The 64 SHA-256 round constants. -/
def shaK : List Nat :=
  [1116352408, 1899447441, 3049323471, 3921009573, 961987163,
   1508970993, 2453635748, 2870763221, 3624381080, 310598401,
   607225278, 1426881987, 1925078388, 2162078206, 2614888103,
   3248222580, 3835390401, 4022224774, 264347078, 604807628,
   770255983, 1249150122, 1555081692, 1996064986, 2554220882,
   2821834349, 2952996808, 3210313671, 3336571891, 3584528711,
   113926993, 338241895, 666307205, 773529912, 1294757372,
   1396182291, 1695183700, 1986661051, 2177026350, 2456956037,
   2730485921, 2820302411, 3259730800, 3345764771, 3516065817,
   3600352804, 4094571909, 275423344, 430227734, 506948616,
   659060556, 883997877, 958139571, 1322822218, 1537002063,
   1747873779, 1955562222, 2024104815, 2227730452, 2361852424,
   2428436474, 2756734187, 3204031479, 3329325298]

/-- The SHA-256 initial hash value. -/
def shaH0 : List Nat :=
  [1779033703, 3144134277, 1013904242, 2773480762,
   1359893119, 2600822924, 528734635, 1541459225]

/-- Big-endian byte encoding of `n` into `k` bytes. -/
def toBytesBE (k n : Nat) : List Nat :=
  match k with
  | 0 => []
  | k' + 1 => toBytesBE k' (n / 256) ++ [n % 256]

/-- SHA-256 padding: append `0x80`, zero bytes, and the 64-bit bit length. -/
def shaPad (msg : List Nat) : List Nat :=
  let len := msg.length
  let zeros := (119 - (len % 64)) % 64
  msg ++ [0x80] ++ List.replicate zeros 0 ++ toBytesBE 8 (len * 8)

/-- Group a byte list into big-endian 32-bit words (length assumed divisible by 4). -/
def bytesToWords : List Nat → List Nat
  | a :: b :: c :: d :: rest => (((a * 256 + b) * 256 + c) * 256 + d) :: bytesToWords rest
  | _ => []

/-- Split a word list into 16-word blocks (fuelled structural recursion;
the fuel is the list length, which always suffices). -/
def chunk16Aux : Nat → List Nat → List (List Nat)
  | 0, _ => []
  | _, [] => []
  | fuel + 1, w :: rest => ((w :: rest).take 16) :: chunk16Aux fuel ((w :: rest).drop 16)

/-- Split a word list into 16-word blocks. -/
def chunk16 (ws : List Nat) : List (List Nat) :=
  chunk16Aux ws.length ws

/-- Extend a 16-word block into the 64-entry message schedule. -/
def shaSchedule (block : List Nat) : List Nat :=
  (List.range 48).foldl
    (fun w j =>
      let i := j + 16
      let x15 := w.getD (i - 15) 0
      let x2 := w.getD (i - 2) 0
      let s0 := (rotr 7 x15) ^^^ (rotr 18 x15) ^^^ (x15 >>> 3)
      let s1 := (rotr 17 x2) ^^^ (rotr 19 x2) ^^^ (x2 >>> 10)
      w ++ [(w.getD (i - 16) 0 + s0 + w.getD (i - 7) 0 + s1) % w32])
    block

/-- One SHA-256 compression round. -/
def shaRound (w : List Nat) (st : List Nat) (i : Nat) : List Nat :=
  match st with
  | [a, b, c, d, e, f, g, h] =>
    let s1 := (rotr 6 e) ^^^ (rotr 11 e) ^^^ (rotr 25 e)
    let ch := (e &&& f) ^^^ ((e ^^^ 0xffffffff) &&& g)
    let t1 := (h + s1 + ch + shaK.getD i 0 + w.getD i 0) % w32
    let s0 := (rotr 2 a) ^^^ (rotr 13 a) ^^^ (rotr 22 a)
    let maj := (a &&& b) ^^^ (a &&& c) ^^^ (b &&& c)
    let t2 := (s0 + maj) % w32
    [(t1 + t2) % w32, a, b, c, (d + t1) % w32, e, f, g]
  | other => other

/-- SHA-256 compression of one 16-word block into the running hash state. -/
def shaCompress (hs : List Nat) (block : List Nat) : List Nat :=
  let w := shaSchedule block
  let fin := (List.range 64).foldl (shaRound w) hs
  List.zipWith (fun x y => (x + y) % w32) hs fin

/-- SHA-256 of a byte list, as eight 32-bit words. -/
def sha256 (msg : List Nat) : List Nat :=
  (chunk16 (bytesToWords (shaPad msg))).foldl shaCompress shaH0

/-- One lowercase hexadecimal digit. -/
def hexDigit (n : Nat) : Char :=
  if n < 10 then Char.ofNat (48 + n) else Char.ofNat (87 + n)

/-- Lowercase hexadecimal rendering of a 32-bit word (8 digits). -/
def toHex8 (x : Nat) : String :=
  String.mk [hexDigit (x / 16 ^ 7 % 16), hexDigit (x / 16 ^ 6 % 16),
             hexDigit (x / 16 ^ 5 % 16), hexDigit (x / 16 ^ 4 % 16),
             hexDigit (x / 16 ^ 3 % 16), hexDigit (x / 16 ^ 2 % 16),
             hexDigit (x / 16 % 16), hexDigit (x % 16)]

/-- Code points of a string's characters; equals its UTF-8 bytes for the
ASCII data hashed by this application (CryptoJS parses input as UTF-8). -/
def strBytes (s : String) : List Nat :=
  s.data.map Char.toNat

/-- Lowercase-hex SHA-256 digest of a string, as produced by
`CryptoJS.SHA256(s).toString()`. -/
def sha256hex (s : String) : String :=
  String.join ((sha256 (strBytes s)).map toHex8)

example : sha256hex "abc" =
    "ba7816bf8f01cfea414140de5dae2223b00361a396177a9cb410ff61f20015ad" := by decide

/-! ## JSON serialization (`JSON.stringify` of the hashed object literals)

`BlockchainContext.tsx` hashes `JSON.stringify(data)` where `data` is an
object literal; `JSON.stringify` keeps the literal's insertion order and
omits keys whose value is `undefined` (which happens for `previousHash`
when the sample's `hashes` array is empty).
-/

/-- JSON string escaping of quote and backslash (the only characters of
JSON.stringify's escape set that can occur in this application's data). -/
def jsonEscape (s : String) : String :=
  String.join (s.data.map fun c =>
    if c = '"' then "\\\"" else if c = '\\' then "\\\\" else String.singleton c)

/-- A JSON string literal. -/
def jsonStr (s : String) : String := "\"" ++ jsonEscape s ++ "\""

/-- One `"key":value` JSON member. -/
def jsonField (k v : String) : String := "\"" ++ k ++ "\":" ++ v

/-- A JSON object from an ordered member list. -/
def jsonObj (fields : List String) : String :=
  "\x7b" ++ String.intercalate "," fields ++ "\x7d"

/-- An optional member: `undefined` values are omitted by `JSON.stringify`. -/
def jsonFieldOpt (k : String) (v : Option String) : List String :=
  match v with
  | none => []
  | some s => [jsonField k (jsonStr s)]

/-! ## `generateHash` and the step payload encodings -/

/-- `generateHash` from `BlockchainContext.tsx`:
`CryptoJS.SHA256(JSON.stringify(data) + Date.now()).toString()`.
`dataJson` is the `JSON.stringify(data)` serialization of the argument and
`now` the internally generated `Date.now()` millisecond clock reading,
which JavaScript's `+` renders in decimal before concatenation. -/
def generateHash (dataJson : String) (now : Nat) : String :=
  sha256hex (dataJson ++ Nat.repr now)

/-- The object hashed by `recordCollection`:
`{ patientId, nurseId, clinicLocation, timestamp, step: 'collection' }`. -/
def collectionData (patientId nurseId clinicLocation timestamp : String) : String :=
  jsonObj [jsonField "patientId" (jsonStr patientId),
           jsonField "nurseId" (jsonStr nurseId),
           jsonField "clinicLocation" (jsonStr clinicLocation),
           jsonField "timestamp" (jsonStr timestamp),
           jsonField "step" (jsonStr "collection")]

/-- The object hashed by `recordTransport`:
`{ sampleId, logisticsId, pickupLocation, deliveryLocation, previousHash, timestamp }`
where `previousHash` is the sample's last recorded hash (`undefined`, hence
omitted, when the hash array is empty). -/
def transportData (sampleId logisticsId pickupLocation deliveryLocation : String)
    (previousHash : Option String) (timestamp : String) : String :=
  jsonObj ([jsonField "sampleId" (jsonStr sampleId),
            jsonField "logisticsId" (jsonStr logisticsId),
            jsonField "pickupLocation" (jsonStr pickupLocation),
            jsonField "deliveryLocation" (jsonStr deliveryLocation)] ++
           jsonFieldOpt "previousHash" previousHash ++
           [jsonField "timestamp" (jsonStr timestamp)])

/-- The object hashed by `recordSequencing`:
`{ sampleId, labId, rawDataChecksum, sequencingType, previousHash, timestamp }`. -/
def sequencingData (sampleId labId rawDataChecksum sequencingType : String)
    (previousHash : Option String) (timestamp : String) : String :=
  jsonObj ([jsonField "sampleId" (jsonStr sampleId),
            jsonField "labId" (jsonStr labId),
            jsonField "rawDataChecksum" (jsonStr rawDataChecksum),
            jsonField "sequencingType" (jsonStr sequencingType)] ++
           jsonFieldOpt "previousHash" previousHash ++
           [jsonField "timestamp" (jsonStr timestamp)])

/-- The object hashed by `recordAnalysis`:
`{ sampleId, analysisResult, riskScore, previousHash, timestamp }`. -/
def analysisData (sampleId analysisResult : String) (riskScore : Int)
    (previousHash : Option String) (timestamp : String) : String :=
  jsonObj ([jsonField "sampleId" (jsonStr sampleId),
            jsonField "analysisResult" (jsonStr analysisResult),
            jsonField "riskScore" (toString riskScore)] ++
           jsonFieldOpt "previousHash" previousHash ++
           [jsonField "timestamp" (jsonStr timestamp)])

/-! ## Data model (`Sample`, `TimelineEntry`, `Transaction`) -/

/-- JavaScript truthiness of a nullable string: `null` and `''` are falsy. -/
def jsTruthy (o : Option String) : Bool :=
  match o with
  | none => false
  | some s => decide (s ≠ "")

/-- `x || undefined` on a nullable string. -/
def orUndefined (o : Option String) : Option String :=
  match o with
  | none => none
  | some s => if s = "" then none else some s

/-- `x || ''` on a nullable string. -/
def orEmpty (o : Option String) : String :=
  match o with
  | none => ""
  | some s => s

/-- Sample status: `'collected' | 'in-transit' | 'sequenced' | 'completed'`. -/
inductive SampleStatus
  | collected
  | inTransit
  | sequenced
  | completed
deriving DecidableEq, Repr

/-- The optional-field `details` record of a timeline entry. -/
structure StepDetails where
  nurseId : Option String := none
  clinicLocation : Option String := none
  logisticsId : Option String := none
  pickupLocation : Option String := none
  deliveryLocation : Option String := none
  labId : Option String := none
  rawDataChecksum : Option String := none
  sequencingType : Option String := none
  riskScore : Option Int := none
  reportGenerated : Option Bool := none
deriving DecidableEq, Repr

/-- `TimelineEntry` from `BlockchainContext.tsx`. -/
structure TimelineEntry where
  step : Nat
  name : String
  hash : String
  txHash : Option String
  timestamp : String
  details : StepDetails
  verified : Bool
deriving DecidableEq, Repr

/-- `Sample` from `BlockchainContext.tsx` (also the Mongo `Sample` schema). -/
structure Sample where
  sampleId : String
  patientId : String
  status : SampleStatus
  currentStep : Nat
  hashes : List String
  txHashes : List String
  timeline : List TimelineEntry
  createdAt : String
  rawDataChecksum : Option String := none
  analysisResult : Option String := none
  riskScore : Option Int := none
  recommendations : Option (List String) := none
  completedAt : Option String := none
deriving DecidableEq, Repr

/-- A JavaScript value stored in a transaction's `data` record. -/
inductive JsVal
  | str (s : String)
  | num (n : Int)
deriving DecidableEq, Repr

/-- Transaction type tag. -/
inductive TxType
  | collection
  | transport
  | sequencing
  | aiAnalysis
deriving DecidableEq, Repr

/-- `Transaction` from `BlockchainContext.tsx` (the audit record). -/
structure Transaction where
  id : String
  type : TxType
  sampleId : String
  hash : String
  txHash : Option String
  timestamp : String
  data : List (String × JsVal)
  walletAddress : Option String
deriving DecidableEq, Repr

/-! ## `SampleTracker.sol` — the on-chain ledger contract -/

/-- Solidity `SampleRecord` struct; `bytes32` hashes and `uint256`
timestamps are `Nat`, the `address` is a `Nat`.  A missing mapping entry
is the all-zero record. -/
structure SampleRecord where
  collectionHash : Nat := 0
  transportHash : Nat := 0
  sequencingHash : Nat := 0
  analysisHash : Nat := 0
  createdAt : Nat := 0
  lastUpdated : Nat := 0
  createdBy : Nat := 0
  currentStep : Nat := 0
deriving DecidableEq, Repr

/-- The contract's `samples` mapping. -/
def ContractState : Type := String → SampleRecord

/-- Freshly deployed contract: every key maps to the zero record. -/
def emptyContract : ContractState := fun _ => {}

/-- Point update of the `samples` mapping. -/
def setRecord (st : ContractState) (k : String) (r : SampleRecord) : ContractState :=
  fun k' => if k' = k then r else st k'

/-- `SampleTracker.recordStep(sampleId, step, hash)`: `require`s become
`Except.error` with the revert string; `blockTimestamp` is
`block.timestamp` and `sender` is `msg.sender`. -/
def recordStep (st : ContractState) (blockTimestamp sender : Nat)
    (sampleId : String) (step : Nat) (hash : Nat) : Except String ContractState :=
  if ¬(1 ≤ step ∧ step ≤ 4) then .error "Invalid step number"
  else if hash = 0 then .error "Hash cannot be empty"
  else
    let record := st sampleId
    let record :=
      if record.createdAt = 0 then
        { record with createdAt := blockTimestamp, createdBy := sender }
      else record
    let record :=
      if step = 1 then { record with collectionHash := hash }
      else if step = 2 then { record with transportHash := hash }
      else if step = 3 then { record with sequencingHash := hash }
      else if step = 4 then { record with analysisHash := hash }
      else record
    let record := { record with currentStep := step, lastUpdated := blockTimestamp }
    .ok (setRecord st sampleId record)

/-- `SampleTracker.getSample(sampleId)`. -/
def getSample (st : ContractState) (sampleId : String) :
    Nat × Nat × Nat × Nat × Nat :=
  let r := st sampleId
  (r.collectionHash, r.transportHash, r.sequencingHash, r.analysisHash, r.createdAt)

/-- `SampleTracker.verifyStep(sampleId, step, hash)`. -/
def verifyStep (st : ContractState) (sampleId : String) (step : Nat) (hash : Nat) : Bool :=
  let r := st sampleId
  if step = 1 then r.collectionHash == hash
  else if step = 2 then r.transportHash == hash
  else if step = 3 then r.sequencingHash == hash
  else if step = 4 then r.analysisHash == hash
  else false

/-- `SampleTracker.getCurrentStep(sampleId)`. -/
def getCurrentStep (st : ContractState) (sampleId : String) : Nat :=
  (st sampleId).currentStep

/-- The hash slot the contract stores for a given step number. -/
def storedStepHash (st : ContractState) (sampleId : String) (step : Nat) : Nat :=
  let r := st sampleId
  if step = 1 then r.collectionHash
  else if step = 2 then r.transportHash
  else if step = 3 then r.sequencingHash
  else if step = 4 then r.analysisHash
  else 0

/-- Whether an `Except` result is a success (a non-reverted call). -/
def isOkE {α : Type} (e : Except String α) : Bool :=
  match e with
  | .ok _ => true
  | .error _ => false

/-- The success state of an `Except` result, if any. -/
def okState {α : Type} (e : Except String α) : Option α :=
  match e with
  | .ok a => some a
  | .error _ => none

/-! ## `sendBlockchainTx` — the transaction submitter

The submitter's effects are parameterized by an environment recording the
wallet preconditions and the outcome each on-chain action would have if
attempted: `Except.error` models a thrown/rejected promise, `Except.ok`
a confirmation whose `receipt?.hash` may itself be `null`.  The function
is total — every failure is caught and converted into a `none` result,
mirroring the `try`/`catch` structure of the source. -/

/-- Environment of one `sendBlockchainTx` call. -/
structure TxEnv where
  isConnected : Bool
  isAmoyNetwork : Bool
  hasSigner : Bool
  contractConfigured : Bool
  gasEstimate : Except String Nat
  primaryTx : Except String (Option String)
  fallbackTx : Except String (Option String)
deriving Repr

/-- Observable outcome of one `sendBlockchainTx` call: the returned
transaction id and how many primary (`recordStep`) and fallback
(payment-proof) submissions were attempted, plus the gas limit used for
the primary submission when one was attempted. -/
structure TxOutcome where
  result : Option String
  primaryAttempts : Nat
  fallbackAttempts : Nat
  gasLimitUsed : Option Nat
deriving DecidableEq, Repr

/-- `receipt?.hash || null`. -/
def receiptOrNull (o : Option String) : Option String :=
  match o with
  | none => none
  | some s => if s = "" then none else some s

/-- `sendBlockchainTx(sampleId, step, hash)` from `BlockchainContext.tsx`.
Precondition failures return `null` with no attempt; a missing contract
configuration goes straight to one fallback payment; otherwise one
`recordStep` submission is attempted (gas-estimation failure falls back
to the default limit `100000`), and on its failure one fallback payment;
every failure path is caught and yields `none`. -/
def sendBlockchainTx (env : TxEnv) : TxOutcome :=
  if !env.isConnected then ⟨none, 0, 0, none⟩
  else if !env.isAmoyNetwork then ⟨none, 0, 0, none⟩
  else if !env.hasSigner then ⟨none, 0, 0, none⟩
  else if !env.contractConfigured then
    match env.fallbackTx with
    | .ok h => ⟨receiptOrNull h, 0, 1, none⟩
    | .error _ => ⟨none, 0, 1, none⟩
  else
    let gasEstimate :=
      match env.gasEstimate with
      | .ok g => g
      | .error _ => 100000
    let gasLimit := gasEstimate + gasEstimate / 10
    match env.primaryTx with
    | .ok h => ⟨receiptOrNull h, 1, 0, some gasLimit⟩
    | .error _ =>
      match env.fallbackTx with
      | .ok h => ⟨receiptOrNull h, 1, 1, some gasLimit⟩
      | .error _ => ⟨none, 1, 1, some gasLimit⟩

/-! ## Client state and the four step-recording operations

`BlockchainContext.tsx` keeps `samples`, `transactions` and `isLoading`
in view-layer state; each `recordX` operation is modelled as a function
of that state plus an environment carrying the clock readings, wallet
account, submitter environment and persistence outcome.  Thrown
`Error`s become `Except.error` with the thrown message.
-/

/-- The provider's state: `samples`, `transactions`, `isLoading`. -/
structure BCState where
  samples : List Sample
  transactions : List Transaction
  isLoading : Bool
deriving DecidableEq, Repr

/-- Environment of one `recordX` call: `new Date().toISOString()`, the
`Date.now()` readings taken for the hash, sample id and transaction id,
the wallet `account`, the submitter environment, and whether the axios
persistence calls would succeed. -/
structure RecEnv where
  timestamp : String
  hashNow : Nat
  sidNow : Nat
  idNow : Nat
  account : Option String
  tx : TxEnv
  apiOk : Bool
deriving Repr

/-- One base-36 digit, uppercased as by `.toString(36).toUpperCase()`. -/
def base36Char (n : Nat) : Char :=
  if n < 10 then Char.ofNat (48 + n) else Char.ofNat (55 + n)

/-- Base-36 digits of `n` (fuelled; the fuel `n` always suffices). -/
def toBase36Aux : Nat → Nat → List Char
  | 0, _ => []
  | fuel + 1, n =>
    if n = 0 then [] else toBase36Aux fuel (n / 36) ++ [base36Char (n % 36)]

/-- `n.toString(36).toUpperCase()` for a natural number. -/
def toBase36 (n : Nat) : String :=
  if n = 0 then "0" else String.mk (toBase36Aux n n)

/-- `samples.find(s => s.sampleId === sampleId)`. -/
def findSample (st : BCState) (sampleId : String) : Option Sample :=
  st.samples.find? fun s => s.sampleId == sampleId

/-- `recordCollection(patientId, nurseId, clinicLocation)`: creates the
sample at step 1 regardless of blockchain success, returning the new
sample and audit transaction. -/
def recordCollection (st : BCState) (patientId nurseId clinicLocation : String)
    (env : RecEnv) : Except String (BCState × Sample × Transaction) :=
  if st.isLoading then .error "Transaction already in progress. Please wait..."
  else
    let timestamp := env.timestamp
    let hash := generateHash (collectionData patientId nurseId clinicLocation timestamp) env.hashNow
    let sampleId := "HELIX-" ++ toBase36 env.sidNow
    let txHash := (sendBlockchainTx env.tx).result
    let sample : Sample :=
      { sampleId := sampleId
        patientId := patientId
        status := .collected
        currentStep := 1
        hashes := [hash]
        txHashes := if jsTruthy txHash then [orEmpty txHash] else []
        timeline := [{ step := 1, name := "Collection", hash := hash,
                       txHash := orUndefined txHash, timestamp := timestamp,
                       details := { nurseId := some nurseId,
                                    clinicLocation := some clinicLocation },
                       verified := jsTruthy txHash }]
        createdAt := timestamp }
    let transaction : Transaction :=
      { id := "TX-" ++ Nat.repr env.idNow
        type := .collection
        sampleId := sampleId
        hash := hash
        txHash := orUndefined txHash
        timestamp := timestamp
        data := [("patientId", .str patientId), ("nurseId", .str nurseId),
                 ("clinicLocation", .str clinicLocation)]
        walletAddress := orUndefined env.account }
    .ok ({ samples := st.samples ++ [sample],
           transactions := st.transactions ++ [transaction],
           isLoading := false },
         sample, transaction)

/-- The per-sample state update performed by `recordTransport` inside
`setSamples` on the matching sample. -/
def transportUpdate (hash : String) (txHash : Option String)
    (entry : TimelineEntry) (s : Sample) : Sample :=
  { s with status := .inTransit, currentStep := 2,
           hashes := s.hashes ++ [hash],
           txHashes := s.txHashes ++ [orEmpty txHash],
           timeline := s.timeline ++ [entry] }

/-- The per-sample state update performed by `recordSequencing` inside
`setSamples` on the matching sample. -/
def sequencingUpdate (hash : String) (txHash : Option String)
    (entry : TimelineEntry) (rawDataChecksum : String) (s : Sample) : Sample :=
  { s with status := .sequenced, currentStep := 3,
           hashes := s.hashes ++ [hash],
           txHashes := s.txHashes ++ [orEmpty txHash],
           rawDataChecksum := some rawDataChecksum,
           timeline := s.timeline ++ [entry] }

/-- The per-sample state update performed by `recordAnalysis` inside
`setSamples` on the matching sample. -/
def analysisUpdate (hash : String) (txHash : Option String)
    (entry : TimelineEntry) (analysisResult : String) (riskScore : Int)
    (recommendations : List String) (completedAt : String) (s : Sample) : Sample :=
  { s with status := .completed, currentStep := 4,
           hashes := s.hashes ++ [hash],
           txHashes := s.txHashes ++ [orEmpty txHash],
           analysisResult := some analysisResult,
           riskScore := some riskScore,
           recommendations := some recommendations,
           completedAt := some completedAt,
           timeline := s.timeline ++ [entry] }

/-- `recordTransport(sampleId, logisticsId, pickupLocation, deliveryLocation)`.
The axios persistence calls are wrapped in a `try`/`catch` whose handler
only logs, so the observable result does not depend on `env.apiOk`. -/
def recordTransport (st : BCState)
    (sampleId logisticsId pickupLocation deliveryLocation : String)
    (env : RecEnv) : Except String BCState :=
  if st.isLoading then .error "Transaction already in progress. Please wait..."
  else
    match findSample st sampleId with
    | none => .error "Sample not found"
    | some currentSample =>
      let hash := generateHash
        (transportData sampleId logisticsId pickupLocation deliveryLocation
          currentSample.hashes.getLast? env.timestamp) env.hashNow
      let txHash := (sendBlockchainTx env.tx).result
      let transaction : Transaction :=
        { id := "TX-" ++ Nat.repr env.idNow
          type := .transport
          sampleId := sampleId
          hash := hash
          txHash := orUndefined txHash
          timestamp := env.timestamp
          data := [("logisticsId", .str logisticsId),
                   ("pickupLocation", .str pickupLocation),
                   ("deliveryLocation", .str deliveryLocation)]
          walletAddress := orUndefined env.account }
      let entry : TimelineEntry :=
        { step := 2, name := "Transport", hash := hash,
          txHash := orUndefined txHash, timestamp := env.timestamp,
          details := { logisticsId := some logisticsId,
                       pickupLocation := some pickupLocation,
                       deliveryLocation := some deliveryLocation },
          verified := jsTruthy txHash }
      let samples := st.samples.map fun s =>
        if s.sampleId == sampleId then transportUpdate hash txHash entry s else s
      .ok { samples := samples,
            transactions := st.transactions ++ [transaction],
            isLoading := false }

/-- `recordSequencing(sampleId, labId, rawDataChecksum, sequencingType)`. -/
def recordSequencing (st : BCState)
    (sampleId labId rawDataChecksum sequencingType : String)
    (env : RecEnv) : Except String BCState :=
  if st.isLoading then .error "Transaction already in progress. Please wait..."
  else
    match findSample st sampleId with
    | none => .error "Sample not found"
    | some currentSample =>
      let hash := generateHash
        (sequencingData sampleId labId rawDataChecksum sequencingType
          currentSample.hashes.getLast? env.timestamp) env.hashNow
      let txHash := (sendBlockchainTx env.tx).result
      let transaction : Transaction :=
        { id := "TX-" ++ Nat.repr env.idNow
          type := .sequencing
          sampleId := sampleId
          hash := hash
          txHash := orUndefined txHash
          timestamp := env.timestamp
          data := [("labId", .str labId), ("rawDataChecksum", .str rawDataChecksum),
                   ("sequencingType", .str sequencingType)]
          walletAddress := orUndefined env.account }
      let entry : TimelineEntry :=
        { step := 3, name := "Sequencing", hash := hash,
          txHash := orUndefined txHash, timestamp := env.timestamp,
          details := { labId := some labId,
                       rawDataChecksum := some rawDataChecksum,
                       sequencingType := some sequencingType },
          verified := jsTruthy txHash }
      let samples := st.samples.map fun s =>
        if s.sampleId == sampleId then
          sequencingUpdate hash txHash entry rawDataChecksum s
        else s
      .ok { samples := samples,
            transactions := st.transactions ++ [transaction],
            isLoading := false }

/-- `recordAnalysis(sampleId, analysisResult, riskScore, recommendations)`. -/
def recordAnalysis (st : BCState)
    (sampleId analysisResult : String) (riskScore : Int)
    (recommendations : List String)
    (env : RecEnv) : Except String BCState :=
  if st.isLoading then .error "Transaction already in progress. Please wait..."
  else
    match findSample st sampleId with
    | none => .error "Sample not found"
    | some currentSample =>
      let hash := generateHash
        (analysisData sampleId analysisResult riskScore
          currentSample.hashes.getLast? env.timestamp) env.hashNow
      let txHash := (sendBlockchainTx env.tx).result
      let transaction : Transaction :=
        { id := "TX-" ++ Nat.repr env.idNow
          type := .aiAnalysis
          sampleId := sampleId
          hash := hash
          txHash := orUndefined txHash
          timestamp := env.timestamp
          data := [("riskScore", .num riskScore),
                   ("analysisResult", .str (analysisResult.take 100))]
          walletAddress := orUndefined env.account }
      let entry : TimelineEntry :=
        { step := 4, name := "AI Analysis", hash := hash,
          txHash := orUndefined txHash, timestamp := env.timestamp,
          details := { riskScore := some riskScore,
                       reportGenerated := some true },
          verified := jsTruthy txHash }
      let samples := st.samples.map fun s =>
        if s.sampleId == sampleId then
          analysisUpdate hash txHash entry analysisResult riskScore
            recommendations env.timestamp s
        else s
      .ok { samples := samples,
            transactions := st.transactions ++ [transaction],
            isLoading := false }

/-! ## The off-chain replica's step-update write (Express server)

`PUT /api/samples/:sampleId/step` from the server: destructures
`{ step, timelineEntry, status, txHash, ...updates }` from the body,
overwrites `currentStep` and `status`, pushes the timeline entry and
transaction hash when present, assigns the remaining updates, and saves.
-/

/-- The rest-updates part of a step request body (step-specific extra
fields assigned onto the sample by `Object.assign`). -/
structure StepUpdates where
  rawDataChecksum : Option String := none
  analysisResult : Option String := none
  riskScore : Option Int := none
  recommendations : Option (List String) := none
  completedAt : Option String := none
deriving DecidableEq, Repr

/-- The body of a `PUT /api/samples/:sampleId/step` request. -/
structure StepRequest where
  step : Nat
  status : SampleStatus
  txHash : Option String
  timelineEntry : Option TimelineEntry
  updates : StepUpdates
deriving DecidableEq, Repr

/-- `Object.assign(sample, updates)`: present fields overwrite. -/
def applyUpdates (s : Sample) (u : StepUpdates) : Sample :=
  { s with
    rawDataChecksum := match u.rawDataChecksum with
      | some v => some v
      | none => s.rawDataChecksum
    analysisResult := match u.analysisResult with
      | some v => some v
      | none => s.analysisResult
    riskScore := match u.riskScore with
      | some v => some v
      | none => s.riskScore
    recommendations := match u.recommendations with
      | some v => some v
      | none => s.recommendations
    completedAt := match u.completedAt with
      | some v => some v
      | none => s.completedAt }

/-- The server's step-update handler over the replica database (a list of
samples): 404 when the sample is missing, otherwise overwrite
`currentStep`/`status`, unconditionally push the timeline entry when one
is supplied, push a truthy `txHash`, assign the remaining updates, and
persist the mutated document. -/
def putSampleStep (db : List Sample) (sampleId : String) (req : StepRequest) :
    Except String (List Sample × Sample) :=
  match db.find? (fun s => s.sampleId == sampleId) with
  | none => .error "Sample not found"
  | some s =>
    let s := { s with currentStep := req.step, status := req.status }
    let s := match req.timelineEntry with
      | some e => { s with timeline := s.timeline ++ [e] }
      | none => s
    let s := if jsTruthy req.txHash
      then { s with txHashes := s.txHashes ++ [orEmpty req.txHash] }
      else s
    let s := applyUpdates s req.updates
    .ok (db.map (fun t => if t.sampleId == sampleId then s else t), s)

/-! ## Concrete fixtures

A concrete run of the embedded operations: a sample is collected, then
transported, then sequenced, with a submitter environment in which the
wallet is not connected (so every submission returns `null` and every
step is recorded unverified). -/

/-- A submitter environment with the wallet not connected. -/
def txEnvNone : TxEnv :=
  { isConnected := false, isAmoyNetwork := false, hasSigner := false,
    contractConfigured := true, gasEstimate := .error "timeout",
    primaryTx := .error "revert", fallbackTx := .error "rejected" }

/-- A call environment using `txEnvNone`. -/
def envNoTx : RecEnv :=
  { timestamp := "2024-01-01T00:00:00.000Z", hashNow := 1700000000000,
    sidNow := 1700000000000, idNow := 1700000000001, account := none,
    tx := txEnvNone, apiOk := true }

/-- The all-empty placeholder timeline entry. -/
def dummyEntry : TimelineEntry :=
  { step := 0, name := "", hash := "", txHash := none, timestamp := "",
    details := {}, verified := false }

/-- The all-empty placeholder sample. -/
def dummySample : Sample :=
  { sampleId := "", patientId := "", status := .collected, currentStep := 0,
    hashes := [], txHashes := [], timeline := [], createdAt := "" }

/-- The empty provider state. -/
def st0 : BCState := { samples := [], transactions := [], isLoading := false }

/-- The sample id generated from `envNoTx.sidNow`. -/
def exSid : String := "HELIX-" ++ toBase36 1700000000000

/-- Provider state after the concrete `recordCollection` call. -/
def exSt1 : BCState :=
  ((okState (recordCollection st0 "P1" "N1" "C1" envNoTx)).map
    (fun t => t.1)).getD st0

/-- The collected sample of the concrete run. -/
def exSample1 : Sample := (findSample exSt1 exSid).getD dummySample

/-- Provider state after the concrete `recordTransport` call. -/
def exSt2 : BCState :=
  (okState (recordTransport exSt1 exSid "L1" "A" "B" envNoTx)).getD st0

/-- The sample after transport in the concrete run. -/
def exSample2 : Sample := (findSample exSt2 exSid).getD dummySample

/-- Provider state after the concrete `recordSequencing` call. -/
def exSt3 : BCState :=
  (okState (recordSequencing exSt2 exSid "LAB-001" "CK9" "WGS" envNoTx)).getD st0

/-- The sample after sequencing in the concrete run. -/
def exSample3 : Sample := (findSample exSt3 exSid).getD dummySample

/-- The sample found in a successful result state. -/
def resultSample (r : Except String BCState) (sid : String) : Option Sample :=
  (okState r).bind fun st => findSample st sid

example : findSample exSt1 exSid ≠ none := by decide
example : exSample1.currentStep = 1 ∧ exSample1.hashes.length = 1 := by decide
example : exSample2.currentStep = 2 ∧ exSample2.timeline.length = 2 := by decide
example : exSample3.currentStep = 3 ∧ exSample3.hashes.length = 3 := by decide

/-! ## Claims about the ledger contract (`recordStep`) -/

/-- C1, as stated, is false: `recordStep` performs no sequential-ordering
check.  On a fresh contract, where the sample's current on-chain step is
0, recording step 3 (which is not `0 + 1`) with a non-empty hash
succeeds instead of reverting. -/
theorem C1_counterexample :
    isOkE (recordStep emptyContract 1000 7 "HELIX-1" 3 5) = true ∧
    getCurrentStep emptyContract "HELIX-1" = 0 ∧
    3 ≠ getCurrentStep emptyContract "HELIX-1" + 1 := by
  decide

/-- C1 (amended): `recordStep` reverts exactly when the step is outside
`1..4` or the hash is the zero value; there is no sequential-ordering
guard, so any in-range step with a non-zero hash succeeds regardless of
the sample's current on-chain step. -/
theorem C1_recordStep_reverts_iff_range_or_empty_hash
    (st : ContractState) (blockTimestamp sender : Nat) (sampleId : String)
    (step hash : Nat) :
    isOkE (recordStep st blockTimestamp sender sampleId step hash) = true ↔
      (1 ≤ step ∧ step ≤ 4 ∧ hash ≠ 0) := by
  unfold recordStep
  by_cases h1 : 1 ≤ step ∧ step ≤ 4
  · by_cases h2 : hash = 0
    · simp [h1, h2, isOkE]
    · simp [h1, h2, isOkE]
  · simp [h1, isOkE]
    intro ha hb
    exact absurd ⟨ha, hb⟩ h1

/-- C10: any call with `step` in `1..4` and a non-zero `bytes32` hash
succeeds regardless of the previously recorded state, overwrites the
hash slot of that step, and unconditionally sets the stored
`currentStep` to the given step. -/
theorem C10_recordStep_unconditionally_overwrites
    (st : ContractState) (blockTimestamp sender : Nat) (sampleId : String)
    (step hash : Nat) (h1 : 1 ≤ step) (h2 : step ≤ 4) (h3 : hash ≠ 0)
    (_h4 : hash < 2 ^ 256) :
    ∃ st', recordStep st blockTimestamp sender sampleId step hash = .ok st' ∧
      (st' sampleId).currentStep = step ∧
      storedStepHash st' sampleId step = hash := by
  unfold recordStep
  rw [if_neg (not_not_intro ⟨h1, h2⟩), if_neg h3]
  refine ⟨_, rfl, by simp [setRecord], ?_⟩
  interval_cases step <;> simp [storedStepHash, setRecord]

/-- Witness for C10: on a contract that already holds step 3 for sample
`"S"`, a later call with the smaller step 1 succeeds and drops the
stored `currentStep` from 3 back to 1. -/
def exChain3 : ContractState :=
  (okState (recordStep emptyContract 1000 7 "S" 3 9)).getD emptyContract

theorem C10_recordStep_unconditionally_overwrites_witness :
    (1 ≤ 1 ∧ 1 ≤ 4 ∧ (5 : Nat) ≠ 0 ∧ (5 : Nat) < 2 ^ 256 ∧
      getCurrentStep exChain3 "S" = 3) ∧
    ∃ st', recordStep exChain3 2000 7 "S" 1 5 = .ok st' ∧
      ( st' "S").currentStep = 1 ∧ storedStepHash st' "S" 1 = 5 :=
  ⟨⟨le_refl 1, by omega, by omega, by norm_num, by decide⟩,
   C10_recordStep_unconditionally_overwrites exChain3 2000 7 "S" 1 5
     (le_refl 1) (by omega) (by omega) (by norm_num)⟩

/-! ## Claims about the transaction submitter (`sendBlockchainTx`) -/

/-- C7: the submitter is a total function (all failure paths are caught);
when the wallet is disconnected, on the wrong network, or without a
signer it returns `null` immediately with no submission attempted; and
whenever the fallback payment fails and either the contract is not
configured or the primary call fails, the overall result is `null`
rather than a propagated exception. -/
theorem C7_sendBlockchainTx_never_throws (env : TxEnv) :
    ((env.isConnected = false ∨ env.isAmoyNetwork = false ∨ env.hasSigner = false) →
      sendBlockchainTx env = ⟨none, 0, 0, none⟩)
    ∧ (∀ e e', env.fallbackTx = Except.error e' →
      (env.contractConfigured = false ∨ env.primaryTx = Except.error e) →
      (sendBlockchainTx env).result = none) := by
  constructor
  · intro h
    rcases h with h | h | h
    · simp [sendBlockchainTx, h]
    · cases hc : env.isConnected <;> simp [sendBlockchainTx, h, hc]
    · cases hc : env.isConnected <;> cases ha : env.isAmoyNetwork <;>
        simp [sendBlockchainTx, h, hc, ha]
  · intro e e' hf hor
    cases hc : env.isConnected
    · simp [sendBlockchainTx, hc]
    · cases ha : env.isAmoyNetwork
      · simp [sendBlockchainTx, hc, ha]
      · cases hs : env.hasSigner
        · simp [sendBlockchainTx, hc, ha, hs]
        · cases hcc : env.contractConfigured
          · simp [sendBlockchainTx, hc, ha, hs, hcc, hf]
          · rcases hor with h | h
            · rw [hcc] at h
              cases h
            · simp [sendBlockchainTx, hc, ha, hs, hcc, h, hf]

/-- Witness for C7 at the concrete disconnected environment. -/
theorem C7_sendBlockchainTx_never_throws_witness :
    (txEnvNone.isConnected = false ∨ txEnvNone.isAmoyNetwork = false ∨
      txEnvNone.hasSigner = false) ∧
    sendBlockchainTx txEnvNone = ⟨none, 0, 0, none⟩ ∧
    (sendBlockchainTx txEnvNone).result = none :=
  ⟨Or.inl rfl,
   (C7_sendBlockchainTx_never_throws txEnvNone).1 (Or.inl rfl),
   (C7_sendBlockchainTx_never_throws txEnvNone).2 "revert" "rejected" rfl (Or.inr rfl)⟩

/-- C9: every invocation of the submitter attempts at most one primary
`recordStep` submission and at most one fallback payment transaction. -/
theorem C9_sendBlockchainTx_bounded_attempts (env : TxEnv) :
    (sendBlockchainTx env).primaryAttempts ≤ 1 ∧
    (sendBlockchainTx env).fallbackAttempts ≤ 1 := by
  obtain ⟨ic, ia, hs, cc, ge, pt, ft⟩ := env
  cases ic <;> cases ia <;> cases hs <;> cases cc <;> cases ge <;> cases pt <;>
    cases ft <;> simp [sendBlockchainTx]

/-! ## Helper lemmas about the state-update shape shared by the
step-recording operations -/

/-- JS truthiness is unchanged by the `x || undefined` normalization. -/
theorem jsTruthy_orUndefined (o : Option String) :
    jsTruthy (orUndefined o) = jsTruthy o := by
  cases o with
  | none => rfl
  | some s => by_cases h : s = "" <;> simp [orUndefined, jsTruthy, h]

/-- The last element of a one-element extension. -/
theorem getLast?_snoc {α : Type} (l : List α) (a : α) :
    (l ++ [a]).getLast? = some a := by
  rw [List.getLast?_append_cons]
  rfl

/-- `find?` through the conditional-update `map` used by `setSamples`:
updating exactly the matching samples moves the found sample through the
update function (which preserves `sampleId`). -/
theorem find?_map_update (l : List Sample) (sid : String) (u : Sample → Sample)
    (hu : ∀ x, (u x).sampleId = x.sampleId) (s : Sample)
    (h : l.find? (fun x => x.sampleId == sid) = some s) :
    (l.map fun x => if x.sampleId == sid then u x else x).find?
      (fun x => x.sampleId == sid) = some (u s) := by
  induction l with
  | nil => cases h
  | cons a l ih =>
    cases hpa : (a.sampleId == sid) with
    | false =>
      rw [List.find?_cons_of_neg _ (by simp [hpa])] at h
      simp only [List.map_cons, hpa, if_false]
      rw [List.find?_cons_of_neg _ (by simp [hpa])]
      exact ih h
    | true =>
      rw [List.find?_cons_of_pos _ (by simp [hpa])] at h
      simp only [List.map_cons, hpa, if_true]
      rw [List.find?_cons_of_pos _ (by simp [hu, hpa])]
      cases h
      rfl

/-! ## Claims about the state machine's ordering checks -/

/-- Provider state of the concrete run after `recordAnalysis`, a
terminal (`currentStep = 4`) sample. -/
def exSt4 : BCState :=
  (okState (recordAnalysis exSt3 exSid "High risk detected" 85
    ["Consult oncologist"] envNoTx)).getD st0

/-- C2, as stated, is false on the code: no ordering validation exists.
Applying Sequencing (step 3) to the freshly-collected sample with
`currentStep = 1` is accepted and jumps `currentStep` to 3 instead of
being rejected with `OutOfOrderStep`; and applying Analysis to the
terminal sample with `currentStep = 4` is accepted and appends a fifth
timeline entry instead of failing with `InvalidStateTransition`. -/
theorem C2_counterexample :
    exSample1.currentStep = 1 ∧
    isOkE (recordSequencing exSt1 exSid "LAB-001" "CK9" "WGS" envNoTx) = true ∧
    (resultSample (recordSequencing exSt1 exSid "LAB-001" "CK9" "WGS" envNoTx)
      exSid).map Sample.currentStep = some 3 ∧
    (findSample exSt4 exSid).map Sample.currentStep = some 4 ∧
    isOkE (recordAnalysis exSt4 exSid "Re-run" 10 [] envNoTx) = true ∧
    (resultSample (recordAnalysis exSt4 exSid "Re-run" 10 [] envNoTx)
      exSid).map (fun s => s.timeline.length) = some 5 := by
  decide

/-- C2 (amended): the operations perform no step-ordering validation.
Whenever no other call is in progress and the sample exists — whatever
its `currentStep`, including the out-of-order and terminal cases —
`recordSequencing` is accepted, sets `currentStep` to 3 outright, and
appends one hash and one timeline entry; the only rejections are a call
already in progress and an unknown sample id. -/
theorem C2_no_ordering_validation (st : BCState)
    (sid labId rawDataChecksum sequencingType : String) (env : RecEnv)
    (s : Sample) (hload : st.isLoading = false)
    (hfind : findSample st sid = some s) :
    ∃ st' s', recordSequencing st sid labId rawDataChecksum sequencingType env =
        .ok st' ∧
      findSample st' sid = some s' ∧ s'.currentStep = 3 ∧
      s'.timeline.length = s.timeline.length + 1 ∧
      s'.hashes.length = s.hashes.length + 1 := by
  have hfind' : st.samples.find? (fun x => x.sampleId == sid) = some s := hfind
  simp only [recordSequencing, hload, Bool.false_eq_true, if_false, hfind]
  refine ⟨_, _, rfl,
    find?_map_update st.samples sid (sequencingUpdate _ _ _ _) (fun x => rfl)
      s hfind', ?_, ?_, ?_⟩
  · rfl
  · simp [sequencingUpdate]
  · simp [sequencingUpdate]

/-- Witness for the amended C2 at the concrete collected state. -/
theorem C2_no_ordering_validation_witness :
    (exSt1.isLoading = false ∧ findSample exSt1 exSid = some exSample1) ∧
    ∃ st' s', recordSequencing exSt1 exSid "LAB-001" "CK9" "WGS" envNoTx =
        .ok st' ∧
      findSample st' exSid = some s' ∧ s'.currentStep = 3 ∧
      s'.timeline.length = exSample1.timeline.length + 1 ∧
      s'.hashes.length = exSample1.hashes.length + 1 :=
  ⟨⟨by decide, by decide⟩,
   C2_no_ordering_validation exSt1 exSid "LAB-001" "CK9" "WGS" envNoTx exSample1
     (by decide) (by decide)⟩

/-! ## Claims about the degraded-verification path and replica writes -/

/-- C5, as stated, is false: the quantification over every accepted
application fails because out-of-order applications are accepted too.
Transport applied to the concrete sequenced sample (`currentStep = 3`)
with the submitter returning `null` is accepted, records the entry with
`verified = false`, but sets `currentStep` to 2 — a decrease, not an
advance by one. -/
theorem C5_counterexample :
    (sendBlockchainTx envNoTx.tx).result = none ∧
    (findSample exSt3 exSid).map Sample.currentStep = some 3 ∧
    isOkE (recordTransport exSt3 exSid "L2" "C" "D" envNoTx) = true ∧
    (resultSample (recordTransport exSt3 exSid "L2" "C" "D" envNoTx) exSid).map
      Sample.currentStep = some 2 ∧
    ((resultSample (recordTransport exSt3 exSid "L2" "C" "D" envNoTx) exSid).bind
      (fun s => s.timeline.getLast?)).map TimelineEntry.verified = some false := by
  decide

/-- C5 (amended): when Transport is applied in order (to a sample with
`currentStep = 1`) and the submitter returns `null`, the call is
accepted, the new timeline entry has `verified = false`, and
`currentStep` still advances by exactly one; for out-of-order
applications `currentStep` is instead set to the step's fixed number. -/
theorem C5_none_result_still_advances (st : BCState)
    (sid logisticsId pickupLocation deliveryLocation : String) (env : RecEnv)
    (s : Sample) (hload : st.isLoading = false)
    (hfind : findSample st sid = some s) (hstep : s.currentStep = 1)
    (hnone : (sendBlockchainTx env.tx).result = none) :
    ∃ st' s', recordTransport st sid logisticsId pickupLocation deliveryLocation
        env = .ok st' ∧
      findSample st' sid = some s' ∧
      s'.currentStep = s.currentStep + 1 ∧
      s'.timeline.getLast?.map TimelineEntry.verified = some false := by
  have hfind' : st.samples.find? (fun x => x.sampleId == sid) = some s := hfind
  simp only [recordTransport, hload, Bool.false_eq_true, if_false, hfind]
  refine ⟨_, _, rfl,
    find?_map_update st.samples sid (transportUpdate _ _ _) (fun x => rfl)
      s hfind', ?_, ?_⟩
  · rw [hstep]
    rfl
  · simp [transportUpdate, getLast?_snoc, hnone, jsTruthy]

/-- Witness for the amended C5 at the concrete collected state. -/
theorem C5_none_result_still_advances_witness :
    (exSt1.isLoading = false ∧ findSample exSt1 exSid = some exSample1 ∧
      exSample1.currentStep = 1 ∧ (sendBlockchainTx envNoTx.tx).result = none) ∧
    ∃ st' s', recordTransport exSt1 exSid "L1" "A" "B" envNoTx = .ok st' ∧
      findSample st' exSid = some s' ∧
      s'.currentStep = exSample1.currentStep + 1 ∧
      s'.timeline.getLast?.map TimelineEntry.verified = some false :=
  ⟨⟨by decide, by decide, by decide, by decide⟩,
   C5_none_result_still_advances exSt1 exSid "L1" "A" "B" envNoTx exSample1
     (by decide) (by decide) (by decide) (by decide)⟩

/-- The concrete environment whose persistence write fails. -/
def envApiFail : RecEnv := { envNoTx with apiOk := false }

/-- C6, as stated, is false: a replica-store write failure is silently
swallowed.  With the persistence backend failing, `recordTransport` on
the concrete collected sample still returns success (no typed failure
reaches the caller) and the step still progresses to `currentStep = 2`. -/
theorem C6_counterexample :
    envApiFail.apiOk = false ∧
    isOkE (recordTransport exSt1 exSid "L1" "A" "B" envApiFail) = true ∧
    (resultSample (recordTransport exSt1 exSid "L1" "A" "B" envApiFail) exSid).map
      Sample.currentStep = some 2 := by
  decide

/-- C6 (amended): the `try`/`catch` around the replica write only logs,
so the observable result of `recordTransport` is identical whether the
persistence write fails or succeeds, and with a failing write the call
still succeeds and the step still progresses. -/
theorem C6_replica_write_failure_swallowed (st : BCState)
    (sid logisticsId pickupLocation deliveryLocation : String) (env : RecEnv)
    (s : Sample) (hload : st.isLoading = false)
    (hfind : findSample st sid = some s) :
    recordTransport st sid logisticsId pickupLocation deliveryLocation
        { env with apiOk := false } =
      recordTransport st sid logisticsId pickupLocation deliveryLocation
        { env with apiOk := true } ∧
    ∃ st' s', recordTransport st sid logisticsId pickupLocation deliveryLocation
        { env with apiOk := false } = .ok st' ∧
      findSample st' sid = some s' ∧ s'.currentStep = 2 ∧
      s'.timeline.length = s.timeline.length + 1 := by
  have hfind' : st.samples.find? (fun x => x.sampleId == sid) = some s := hfind
  constructor
  · rfl
  · simp only [recordTransport, hload, Bool.false_eq_true, if_false, hfind]
    refine ⟨_, _, rfl,
      find?_map_update st.samples sid (transportUpdate _ _ _) (fun x => rfl)
        s hfind', ?_, ?_⟩
    · rfl
    · simp [transportUpdate]

/-- Witness for the amended C6 at the concrete collected state. -/
theorem C6_replica_write_failure_swallowed_witness :
    (exSt1.isLoading = false ∧ findSample exSt1 exSid = some exSample1) ∧
    recordTransport exSt1 exSid "L1" "A" "B" { envNoTx with apiOk := false } =
      recordTransport exSt1 exSid "L1" "A" "B" { envNoTx with apiOk := true } ∧
    ∃ st' s', recordTransport exSt1 exSid "L1" "A" "B"
        { envNoTx with apiOk := false } = .ok st' ∧
      findSample st' exSid = some s' ∧ s'.currentStep = 2 ∧
      s'.timeline.length = exSample1.timeline.length + 1 :=
  ⟨⟨by decide, by decide⟩,
   C6_replica_write_failure_swallowed exSt1 exSid "L1" "A" "B" envNoTx exSample1
     (by decide) (by decide)⟩

/-! ## Claims about the hash function -/

/-- C3, as stated, is false: `generateHash` appends the internally
generated `Date.now()` reading to the serialized data before digesting,
so two calls with identical stepPayload, previousHash and caller-supplied
timestamp but clock readings one millisecond apart return different
digests. -/
theorem C3_counterexample :
    generateHash (collectionData "P1" "N1" "C1" "2024-01-01T00:00:00.000Z")
        1700000000000 ≠
      generateHash (collectionData "P1" "N1" "C1" "2024-01-01T00:00:00.000Z")
        1700000000001 := by
  decide

/-- C3 (amended): the digest is a pure function of the full preimage —
the JSON encoding of the data concatenated with the decimal rendering of
the internal `Date.now()` reading; two calls agree whenever those
concatenations agree (in particular when both the data and the clock
reading coincide). -/
theorem C3_deterministic_in_full_preimage (d1 d2 : String) (n1 n2 : Nat)
    (h : d1 ++ Nat.repr n1 = d2 ++ Nat.repr n2) :
    generateHash d1 n1 = generateHash d2 n2 := by
  unfold generateHash
  rw [h]

/-- Witness for the amended C3. -/
theorem C3_deterministic_in_full_preimage_witness :
    (collectionData "P1" "N1" "C1" "t0" ++ Nat.repr 1700000000000 =
      collectionData "P1" "N1" "C1" "t0" ++ Nat.repr 1700000000000) ∧
    generateHash (collectionData "P1" "N1" "C1" "t0") 1700000000000 =
      generateHash (collectionData "P1" "N1" "C1" "t0") 1700000000000 :=
  ⟨rfl, C3_deterministic_in_full_preimage _ _ _ _ rfl⟩

/-! ## Claims about the replica's step-update write -/

/-- The concrete replay request: the step-2 update re-sent with the
timeline entry already recorded for that step. -/
def exReplayReq : StepRequest :=
  { step := 2, status := .inTransit, txHash := none,
    timelineEntry := exSample2.timeline.getLast?, updates := {} }

/-- The concrete replayed write against a replica holding the
transported sample. -/
def exPut : Except String (List Sample × Sample) :=
  putSampleStep [exSample2] exSid exReplayReq

/-- C4, as stated, is false: the handler pushes the timeline entry
unconditionally, so replaying the step-2 update against the replica
that already holds step 2 duplicates the timeline entry (two entries
with step 2, timeline grown from 2 to 3), rather than no-oping or
updating only `transactionId`/`verified`. -/
theorem C4_counterexample :
    exSample2.timeline.length = 2 ∧
    (exSample2.timeline.filter fun e => e.step == 2).length = 1 ∧
    (okState exPut).map (fun p => p.2.timeline.length) = some 3 ∧
    (okState exPut).map
      (fun p => (p.2.timeline.filter fun e => e.step == 2).length) = some 2 := by
  decide

/-- C4 (amended): the step-update write is not idempotent.  Whenever the
sample exists and the request carries a timeline entry, the handler
succeeds and appends that entry to the timeline — replaying an
already-recorded step number grows the timeline by one each time — and
overwrites `currentStep` and `status` with the request's values. -/
theorem C4_put_step_always_appends (db : List Sample) (sid : String)
    (req : StepRequest) (s : Sample) (e : TimelineEntry)
    (hfind : db.find? (fun x => x.sampleId == sid) = some s)
    (he : req.timelineEntry = some e) :
    ∃ db' s', putSampleStep db sid req = .ok (db', s') ∧
      s'.timeline = s.timeline ++ [e] ∧
      s'.currentStep = req.step ∧ s'.status = req.status := by
  simp only [putSampleStep, hfind, he]
  cases ht : jsTruthy req.txHash
  · simp only [ht, Bool.false_eq_true, if_false]
    exact ⟨_, _, rfl, rfl, rfl, rfl⟩
  · simp only [ht, if_true]
    exact ⟨_, _, rfl, rfl, rfl, rfl⟩

/-- Witness for the amended C4: the concrete replay request. -/
theorem C4_put_step_always_appends_witness :
    ((List.find? (fun x => x.sampleId == exSid) [exSample2] = some exSample2) ∧
      exReplayReq.timelineEntry =
        some (exSample2.timeline.getLast?.getD dummyEntry)) ∧
    ∃ db' s', putSampleStep [exSample2] exSid exReplayReq = .ok (db', s') ∧
      s'.timeline = exSample2.timeline ++
        [exSample2.timeline.getLast?.getD dummyEntry] ∧
      s'.currentStep = exReplayReq.step ∧ s'.status = exReplayReq.status :=
  ⟨⟨by decide, by decide⟩,
   C4_put_step_always_appends [exSample2] exSid exReplayReq exSample2
     (exSample2.timeline.getLast?.getD dummyEntry) (by decide) (by decide)⟩

/-! ## The per-sample invariant (claim C8) -/

/-- The data-model invariant: hash-chain length and timeline length equal
`currentStep`, positionwise agreement of timeline hashes with the hash
chain, and `verified` exactly when a non-empty transaction id was
recorded for the entry. -/
def sampleInvariant (s : Sample) : Prop :=
  s.hashes.length = s.currentStep ∧
  s.timeline.length = s.currentStep ∧
  (∀ i, i < s.currentStep →
    (s.timeline.getD i dummyEntry).hash = s.hashes.getD i "") ∧
  (∀ e ∈ s.timeline, e.verified = jsTruthy e.txHash)

instance {e a : Type} [DecidableEq e] [DecidableEq a] : DecidableEq (Except e a) :=
  fun x y =>
    match x, y with
    | .ok u, .ok v =>
      if h : u = v then .isTrue (congrArg Except.ok h)
      else .isFalse (fun hc => h (Except.ok.inj hc))
    | .error u, .error v =>
      if h : u = v then .isTrue (congrArg Except.error h)
      else .isFalse (fun hc => h (Except.error.inj hc))
    | .ok _, .error _ => .isFalse (fun hc => Except.noConfusion hc)
    | .error _, .ok _ => .isFalse (fun hc => Except.noConfusion hc)

instance (s : Sample) : Decidable (sampleInvariant s) :=
  inferInstanceAs (Decidable (s.hashes.length = s.currentStep ∧
    s.timeline.length = s.currentStep ∧
    (∀ i, i < s.currentStep →
      (s.timeline.getD i dummyEntry).hash = s.hashes.getD i "") ∧
    (∀ e ∈ s.timeline, e.verified = jsTruthy e.txHash)))

/-- C8, as stated, is false: because out-of-order applications are
accepted (C2), a successful step application can break the invariant.
The collected sample satisfies the invariant, the out-of-order
Sequencing call on it succeeds, and the resulting sample violates the
invariant (2 hashes and 2 timeline entries against `currentStep = 3`). -/
theorem C8_counterexample :
    sampleInvariant exSample1 ∧
    isOkE (recordSequencing exSt1 exSid "LAB-X" "CK0" "WES" envNoTx) = true ∧
    ¬ sampleInvariant ((resultSample
      (recordSequencing exSt1 exSid "LAB-X" "CK0" "WES" envNoTx) exSid).getD
        dummySample) := by
  decide

/-- C8 (amended): the invariant holds after in-order applications.
`recordCollection` establishes it with `currentStep = 1`, and
`recordTransport` applied to an invariant-satisfying sample with
`currentStep = 1` (the in-order case) preserves it while advancing
`currentStep` by exactly one; out-of-order applications can break the
`length = currentStep` clauses. -/
theorem C8_invariant_after_in_order_steps :
    (∀ st patientId nurseId clinicLocation env st' sm tr,
      recordCollection st patientId nurseId clinicLocation env =
        .ok (st', sm, tr) →
      sampleInvariant sm ∧ sm.currentStep = 1) ∧
    (∀ st sid logisticsId pickupLocation deliveryLocation env s,
      st.isLoading = false → findSample st sid = some s →
      sampleInvariant s → s.currentStep = 1 →
      ∃ st' s', recordTransport st sid logisticsId pickupLocation
          deliveryLocation env = .ok st' ∧
        findSample st' sid = some s' ∧ sampleInvariant s' ∧
        s'.currentStep = s.currentStep + 1) := by
  constructor
  · intro st patientId nurseId clinicLocation env st' sm tr h
    cases hl : st.isLoading with
    | true => simp [recordCollection, hl] at h
    | false =>
      simp only [recordCollection, hl, Bool.false_eq_true, if_false,
        Except.ok.injEq, Prod.mk.injEq] at h
      obtain ⟨-, hsm, -⟩ := h
      subst hsm
      refine ⟨⟨rfl, rfl, ?_, ?_⟩, rfl⟩
      · intro i hi
        have hi0 : i = 0 := Nat.lt_one_iff.mp hi
        subst hi0
        simp only [List.getD_cons_zero]
      · intro e he
        simp only [List.mem_singleton] at he
        subst he
        exact (jsTruthy_orUndefined _).symm
  · intro st sid logisticsId pickupLocation deliveryLocation env s hload hfind
      hinv hstep
    have hfind' : st.samples.find? (fun x => x.sampleId == sid) = some s := hfind
    obtain ⟨hlen1, hlen2, hidx, hver⟩ := hinv
    have hlen1' : s.hashes.length = 1 := by rw [hlen1, hstep]
    have hlen2' : s.timeline.length = 1 := by rw [hlen2, hstep]
    simp only [recordTransport, hload, Bool.false_eq_true, if_false, hfind]
    refine ⟨_, _, rfl,
      find?_map_update st.samples sid (transportUpdate _ _ _) (fun x => rfl)
        s hfind', ⟨?_, ?_, ?_, ?_⟩, ?_⟩
    · simp [transportUpdate, hlen1, hstep]
    · simp [transportUpdate, hlen2, hstep]
    · intro i hi
      simp only [transportUpdate] at hi ⊢
      rcases Nat.lt_or_ge i 1 with h1 | h1
      · rw [List.getD_append _ _ _ _ (by omega),
          List.getD_append _ _ _ _ (by omega)]
        exact hidx i (by omega)
      · have hi2 : i = 1 := by omega
        subst hi2
        rw [List.getD_append_right _ _ _ _ (by omega),
          List.getD_append_right _ _ _ _ (by omega)]
        simp [hlen1', hlen2']
    · intro e he
      simp only [transportUpdate, List.mem_append, List.mem_singleton] at he
      rcases he with he | he
      · exact hver e he
      · subst he
        exact (jsTruthy_orUndefined _).symm
    · rw [hstep]
      rfl

/-- The sample returned by the concrete `recordCollection` call. -/
def exCollectionSample : Sample :=
  ((okState (recordCollection st0 "P1" "N1" "C1" envNoTx)).map
    (fun t => t.2.1)).getD dummySample

/-- The audit transaction returned by the concrete `recordCollection`
call. -/
def exCollectionTx : Transaction :=
  ((okState (recordCollection st0 "P1" "N1" "C1" envNoTx)).map
    (fun t => t.2.2)).getD
    { id := "", type := .collection, sampleId := "", hash := "",
      txHash := none, timestamp := "", data := [], walletAddress := none }

/-- Witness for the amended C8 along the concrete run. -/
theorem C8_invariant_after_in_order_steps_witness :
    (recordCollection st0 "P1" "N1" "C1" envNoTx =
      .ok (exSt1, exCollectionSample, exCollectionTx)) ∧
    (sampleInvariant exCollectionSample ∧ exCollectionSample.currentStep = 1) ∧
    (exSt1.isLoading = false ∧ findSample exSt1 exSid = some exSample1 ∧
      sampleInvariant exSample1 ∧ exSample1.currentStep = 1) ∧
    (∃ st' s', recordTransport exSt1 exSid "L1" "A" "B" envNoTx = .ok st' ∧
      findSample st' exSid = some s' ∧ sampleInvariant s' ∧
      s'.currentStep = exSample1.currentStep + 1) :=
  ⟨by decide,
   C8_invariant_after_in_order_steps.1 st0 "P1" "N1" "C1" envNoTx exSt1
     exCollectionSample exCollectionTx (by decide),
   ⟨by decide, by decide, by decide, by decide⟩,
   C8_invariant_after_in_order_steps.2 exSt1 exSid "L1" "A" "B" envNoTx
     exSample1 (by decide) (by decide) (by decide) (by decide)⟩
